import Mathlib

/-!
Verification of the NSE PCR tracker session / fetch pipeline.

A shallow embedding of the session-acquisition and rate-adaptive fetch
pipeline of this repository.  The authoritative variant embedded here is
the gated one (`src/unnamed/part_001`): global rate governor
(`waitForRateLimit`, 8 s minimum gap), session store (`sessionData` with
cookies / timestamp / ttl / consecutiveFailures), the multi-step session
handshake (`initializeNSESession`, modelled as `initNSESession` below),
and the retrying fetcher (`fetchOptionChain`) with its 60 s cooldown
circuit breaker.  The simpler `ensureSession` acquirer of
`src/server.js` is embedded as well, since several claims range over it.

Effects are modelled by explicit state passing: a computation takes an
environment (the network's prescribed outcomes, a random stream) and a
world (session store, rate-governor state, clock, request counters) and
returns a JavaScript-style result (`Except` for thrown errors), the new
world, and a trace of observable events (outbound requests and sleeps).
`Date.now()` is the world's clock; sleeping advances it, and every
network call advances it by the environment-prescribed duration.
-/

/-- The four upstream resources the pipeline requests: the landing page,
the two warm-up pages, and the option-chain data endpoint. -/
inductive ReqKind
  | homepage
  | warmDeriv
  | warmOC
  | dataEndpoint
  deriving DecidableEq, Repr

/-- Observable events of a run: an outbound HTTP request, or a sleep of
the given number of milliseconds. -/
inductive Event
  | request (k : ReqKind)
  | sleep (ms : Nat)
  deriving DecidableEq, Repr

/-- The errors thrown by the JavaScript source: axios rejections from
`validateStatus`, the explicit `throw new Error(...)` sites of
`initializeNSESession` and `fetchOptionChain`, and network-level
failures (timeouts). -/
inductive JsError
  | axiosStatus (code : Nat)
  | homepageStatus (code : Nat)
  | noCookies
  | forbidden
  | httpStatus (code : Nat)
  | invalidStructure
  | netTimeout
  deriving DecidableEq, Repr

/-- The body of a data-endpoint response: whether `response.data.records`
is present, plus an opaque payload identity. -/
structure RespData where
  records : Bool
  blob : Nat
  deriving DecidableEq, Repr

/-- One prescribed network outcome: either a network-level failure
(`netFail` set), or a response with a status, `Set-Cookie` directives and
a body; `duration` is how far the clock advances during the call. -/
structure NetOutcome where
  netFail : Option JsError
  status : Nat
  setCookie : List String
  body : RespData
  duration : Nat
  deriving DecidableEq, Repr

/-- What a resolved axios call hands back to the caller. -/
structure AxiosResp where
  status : Nat
  setCookie : List String
  body : RespData
  deriving DecidableEq, Repr

/-- The mutable `sessionData` object of the source: cookie string,
acquisition timestamp, time to live and the consecutive-failure streak
counter (`src/unnamed/part_001` lines 15-20). -/
structure SessionData where
  cookies : Option String
  timestamp : Option Nat
  ttl : Nat
  consecutiveFailures : Nat
  deriving DecidableEq, Repr

/-- Per-kind counters of how many requests have been issued so far; they
index into the environment's outcome streams. -/
structure Counts where
  homepage : Nat
  warmDeriv : Nat
  warmOC : Nat
  dataReq : Nat
  deriving DecidableEq, Repr

/-- The outcome-stream index for a request kind. -/
def Counts.get (c : Counts) : ReqKind → Nat
  | .homepage => c.homepage
  | .warmDeriv => c.warmDeriv
  | .warmOC => c.warmOC
  | .dataEndpoint => c.dataReq

/-- Bump the counter of one request kind. -/
def Counts.bump (c : Counts) : ReqKind → Counts
  | .homepage => { c with homepage := c.homepage + 1 }
  | .warmDeriv => { c with warmDeriv := c.warmDeriv + 1 }
  | .warmOC => { c with warmOC := c.warmOC + 1 }
  | .dataEndpoint => { c with dataReq := c.dataReq + 1 }

/-- The uncontrolled outside world: the outcome of the `n`-th request of
each kind, and the stream of `Math.random()` draws (already scaled to
milliseconds). -/
structure Env where
  net : ReqKind → Nat → NetOutcome
  rand : Nat → Nat

/-- Process state: session store, rate-governor state (`lastRequestTime`),
the wall clock, request counters and the random-draw counter. -/
structure World where
  sess : SessionData
  lastRequestTime : Nat
  clock : Nat
  counts : Counts
  randCount : Nat
  deriving DecidableEq, Repr

/-- A JavaScript computation: given the environment and the world, it
yields a result (or a thrown error), the new world, and the trace of
events it performed, in order. -/
def M (α : Type) : Type := Env → World → Except JsError α × World × List Event

/-- Sequencing with JavaScript exception semantics: a thrown error skips
the continuation but keeps the state mutations and the trace so far. -/
def M.bind {α β : Type} (x : M α) (f : α → M β) : M β := fun env w =>
  match x env w with
  | (.ok a, w1, ev) =>
    match f a env w1 with
    | (r, w2, ev2) => (r, w2, ev ++ ev2)
  | (.error e, w1, ev) => (.error e, w1, ev)

/-- A pure value: no state change, no events. -/
def M.pure {α : Type} (a : α) : M α := fun _ w => (.ok a, w, [])

instance : Monad M where
  pure := M.pure
  bind := M.bind

/-- JavaScript `try { x } catch (e) { h e }`. -/
def M.tryCatch {α : Type} (x : M α) (h : JsError → M α) : M α := fun env w =>
  match x env w with
  | (.ok a, w1, ev) => (.ok a, w1, ev)
  | (.error e, w1, ev) =>
    match h e env w1 with
    | (r, w2, ev2) => (r, w2, ev ++ ev2)

/-- JavaScript `throw e`. -/
def throwJs {α : Type} (e : JsError) : M α := fun _ w => (.error e, w, [])

/-- JavaScript `Date.now()`. -/
def dateNow : M Nat := fun _ w => (.ok w.clock, w, [])

/-- Read the shared `sessionData` object. -/
def getSess : M SessionData := fun _ w => (.ok w.sess, w, [])

/-- Mutate the shared `sessionData` object. -/
def modifySess (f : SessionData → SessionData) : M Unit := fun _ w =>
  (.ok (), { w with sess := f w.sess }, [])

/-- Read the module-level `lastRequestTime`. -/
def getLastReq : M Nat := fun _ w => (.ok w.lastRequestTime, w, [])

/-- Write the module-level `lastRequestTime`. -/
def setLastReq (t : Nat) : M Unit := fun _ w =>
  (.ok (), { w with lastRequestTime := t }, [])

/-- JavaScript `await new Promise(resolve => setTimeout(resolve, ms))`: advances the
clock by `ms` and records the sleep in the trace. -/
def jsSleep (ms : Nat) : M Unit := fun _ w =>
  (.ok (), { w with clock := w.clock + ms }, [Event.sleep ms])

/-- One `Math.random()`-derived jitter draw, from the environment. -/
def randDraw : M Nat := fun env w =>
  (.ok (env.rand w.randCount), { w with randCount := w.randCount + 1 }, [])

/-- One `axios.get` call site: consumes the next prescribed outcome of
the request kind, advances the clock by its duration, emits the request
event, and either rejects (network failure, or `validateStatus` false)
or resolves with the response. -/
def axiosGet (k : ReqKind) (validate : Nat → Bool) : M AxiosResp := fun env w =>
  let o := env.net k (w.counts.get k)
  let w1 : World := { w with counts := w.counts.bump k, clock := w.clock + o.duration }
  match o.netFail with
  | some e => (.error e, w1, [Event.request k])
  | none =>
    if validate o.status then
      (.ok { status := o.status, setCookie := o.setCookie, body := o.body }, w1, [Event.request k])
    else
      (.error (JsError.axiosStatus o.status), w1, [Event.request k])

/-- The constant `MIN_REQUEST_GAP = 8000` (`src/unnamed/part_001` line 24). -/
def MIN_REQUEST_GAP : Nat := 8000

/-- JavaScript number coercion of a possibly-`null` timestamp (`null`
coerces to `0` in the subtraction `now - sessionData.timestamp`). -/
def tsVal : Option Nat → Nat
  | none => 0
  | some t => t

/-- The gate `waitForRateLimit` (`src/unnamed/part_001` lines 26-37): if less than
`MIN_REQUEST_GAP` ms elapsed since `lastRequestTime`, sleep the
difference; then record `Date.now()` as the new `lastRequestTime`. -/
def waitForRateLimit : M Unit := do
  let now ← dateNow
  let last ← getLastReq
  if now - last < MIN_REQUEST_GAP then
    jsSleep (MIN_REQUEST_GAP - (now - last))
  else
    pure ()
  let now2 ← dateNow
  setLastReq now2

/-- JavaScript `c.split(';')[0]`: the prefix of a directive up to (excluding) its
first `;`, the whole string when it has none. -/
def firstSegment (c : String) : String :=
  String.mk (c.data.takeWhile fun ch => ch ≠ ';')

/-- JavaScript `cookies.map(c => c.split(';')[0]).join('; ')`
(`src/unnamed/part_001` line 93): keep only the first `;`-delimited
segment of each Set-Cookie directive and join with `"; "`. -/
def cookieHeaderOfDirectives (cs : List String) : String :=
  String.intercalate ("; ") (cs.map firstSegment)

/-- The `try` block of `initializeNSESession` (`src/unnamed/part_001`
lines 47-141): rate-governed landing-page request (status must be 200
and cookies must be present), human-like delays, two warm-up page
requests, then populate the session store with the derived cookie
string and `timestamp := now` (the clock read at entry). -/
def initHandshake (now : Nat) : M String := do
  waitForRateLimit
  let homeResponse ← axiosGet .homepage fun s => decide (200 ≤ s) && decide (s < 500)
  if homeResponse.status ≠ 200 then throwJs (.homepageStatus homeResponse.status) else pure ()
  let cookies := homeResponse.setCookie
  if cookies.isEmpty then throwJs .noCookies else pure ()
  jsSleep 4000
  let cookieString := cookieHeaderOfDirectives cookies
  waitForRateLimit
  let _ ← axiosGet .warmDeriv fun _ => true
  jsSleep 3000
  waitForRateLimit
  let _ ← axiosGet .warmOC fun s => decide (200 ≤ s) && decide (s < 300)
  jsSleep 2000
  modifySess fun sd =>
    { sd with cookies := some cookieString, timestamp := some now, consecutiveFailures := 0 }
  pure cookieString

/-- The `catch` block of `initializeNSESession` (`src/unnamed/part_001`
lines 143-147): increment `consecutiveFailures` and rethrow. -/
def initCatch : JsError → M String := fun e => do
  modifySess fun sd => { sd with consecutiveFailures := sd.consecutiveFailures + 1 }
  throwJs e

/-- The acquirer `initializeNSESession(forceRefresh)` (`src/unnamed/part_001` lines
39-148): cache hit when not forced and the stored session is younger
than its ttl; otherwise run the handshake under the `catch` above. -/
def initNSESession (forceRefresh : Bool) : M String := do
  let now ← dateNow
  let sd ← getSess
  if !forceRefresh && sd.cookies.isSome && decide (now - tsVal sd.timestamp < sd.ttl) then
    pure (sd.cookies.getD (""))
  else
    M.tryCatch (initHandshake now) initCatch

/-- The data-request half of one attempt of `fetchOptionChain`
(`src/unnamed/part_001` lines 164-201): pass the rate gate, issue the
data request, classify the response (403, other non-200, missing
`records`), and on success reset the failure streak and return the
payload. -/
def dataStep (symbol : String) : M RespData := do
  waitForRateLimit
  let response ← axiosGet .dataEndpoint fun s => decide (200 ≤ s) && decide (s < 500)
  if response.status = 403 then throwJs .forbidden else pure ()
  if response.status ≠ 200 then throwJs (.httpStatus response.status) else pure ()
  if response.body.records then do
    modifySess fun sd => { sd with consecutiveFailures := 0 }
    pure response.body
  else
    throwJs .invalidStructure

/-- One attempt = session acquisition (forced iff `attempt > 1`) followed
by the rate-governed data request above. -/
def fetchAttemptBody (symbol : String) (attempt : Nat) : M RespData := do
  let _cookies ← initNSESession (decide (1 < attempt))
  dataStep symbol

/-- The `try` block of one loop iteration: the attempt body wrapped so a
success yields `some payload`. -/
def attemptAndWrap (symbol : String) (attempt : Nat) : M (Option RespData) := do
  let d ← fetchAttemptBody symbol attempt
  pure (some d)

/-- The retry loop of `fetchOptionChain` (`src/unnamed/part_001` lines
160-215), structurally recursive on the remaining iteration count: run
the attempt body; on a thrown error increment `consecutiveFailures`,
rethrow if this was the last attempt (`attempt === retries`), otherwise
sleep `15000 + Math.random()*5000` ms and try again.  Falling off the
loop (`attempt > retries` from the start) returns `undefined`, modelled
as `none`. -/
def fetchLoop (symbol : String) (retries : Int) (attempt : Nat) : Nat → M (Option RespData)
  | 0 => pure none
  | fuel + 1 =>
    M.tryCatch
      (attemptAndWrap symbol attempt)
      (fun e => do
        modifySess fun sd => { sd with consecutiveFailures := sd.consecutiveFailures + 1 }
        if (attempt : Int) = retries then
          throwJs e
        else do
          let j ← randDraw
          jsSleep (15000 + j)
          fetchLoop symbol retries (attempt + 1) fuel)

/-- The circuit-breaker preamble of `fetchOptionChain`
(`src/unnamed/part_001` lines 153-158): with three or more consecutive
failures, sleep 60000 ms and reset the streak before anything else. -/
def cooldownStep : M Unit := do
  let sd ← getSess
  if 3 ≤ sd.consecutiveFailures then do
    jsSleep 60000
    modifySess fun s => { s with consecutiveFailures := 0 }
  else
    pure ()

/-- The fetcher `fetchOptionChain(symbol, retries)` (`src/unnamed/part_001` lines
150-216): cooldown check, then the `for (attempt = 1; attempt <=
retries; ...)` loop, which iterates `max(retries, 0)` times. -/
def fetchOptionChain (symbol : String) (retries : Int) : M (Option RespData) := do
  cooldownStep
  fetchLoop symbol retries 1 retries.toNat

/-- The acquirer `ensureSession` of `src/server.js` (lines 103-133): cache hit when
cookies and timestamp are present and younger than ttl; otherwise one
landing-page request; if it resolves with cookies, store and return
`cookies.join('; ')` (the full directives, attributes included) with
`timestamp := Date.now()` read after the request; on no cookies or on
any thrown error, fall through and return the existing (possibly stale
or null) `sessionData.cookies` without recording a failure. -/
def ensureSession : M (Option String) := fun env w =>
  if w.sess.cookies.isSome && w.sess.timestamp.isSome
      && decide (w.clock - tsVal w.sess.timestamp < w.sess.ttl) then
    (.ok w.sess.cookies, w, [])
  else
    match axiosGet .homepage (fun s => decide (200 ≤ s) && decide (s < 300)) env w with
    | (.ok resp, w1, ev) =>
      if resp.setCookie.isEmpty then
        (.ok w1.sess.cookies, w1, ev)
      else
        let cs := String.intercalate ("; ") resp.setCookie
        (.ok (some cs),
          { w1 with sess :=
            { w1.sess with cookies := some cs, timestamp := some w1.clock } }, ev)
    | (.error _, w1, ev) => (.ok w1.sess.cookies, w1, ev)

deriving instance DecidableEq for Except

/-- Number of outbound requests of any kind in a trace. -/
def countReq (evs : List Event) : Nat :=
  evs.countP fun e => match e with
    | .request _ => true
    | .sleep _ => false

/-- An environment in which every handshake step succeeds: the landing
page always resolves with status 200 and a nonempty cookie list, and the
two warm-up requests always resolve acceptably. -/
def handshakeEnvOk (net : ReqKind → Nat → NetOutcome) : Prop :=
  (∀ n, (net .homepage n).netFail = none ∧ (net .homepage n).status = 200 ∧
    (net .homepage n).setCookie ≠ []) ∧
  (∀ n, (net .warmDeriv n).netFail = none) ∧
  (∀ n, (net .warmOC n).netFail = none ∧ 200 ≤ (net .warmOC n).status ∧
    (net .warmOC n).status < 300)

/-- Whether a data-endpoint outcome lets the attempt succeed: no network
failure, status exactly 200, and `records` present. -/
def dataOutcomeOk (o : NetOutcome) : Bool :=
  o.netFail.isNone && o.status == 200 && o.body.records

/-- The error a failing data-endpoint outcome produces, mirroring the
classification order of the source: axios `validateStatus` first, then
403, then any other non-200, then the missing-`records` check. -/
def dataCauseT (o : NetOutcome) : JsError :=
  match o.netFail with
  | some e => e
  | none =>
    if ¬ (200 ≤ o.status ∧ o.status < 500) then .axiosStatus o.status
    else if o.status = 403 then .forbidden
    else if o.status ≠ 200 then .httpStatus o.status
    else .invalidStructure

/-- A sequence of gated calls: before each call the clock advances by an
arbitrary amount (other work), then `waitForRateLimit` runs; the list of
recorded `lastRequestTime` values (one per completed call) is returned. -/
def gateRuns (env : Env) : List Nat → World → World × List Nat
  | [], w => (w, [])
  | d :: ds, w =>
    let w1 : World := { w with clock := w.clock + d }
    let w2 := (waitForRateLimit env w1).2.1
    let p := gateRuns env ds w2
    (p.1, w2.lastRequestTime :: p.2)

/-- The padding the rate gate adds to the clock. -/
def wfPad (w : World) : Nat :=
  if w.clock - w.lastRequestTime < MIN_REQUEST_GAP then
    MIN_REQUEST_GAP - (w.clock - w.lastRequestTime)
  else 0

/-- The clock value at which a gated call completes. -/
def wfClock (w : World) : Nat := w.clock + wfPad w

/-- The trace of one gated call. -/
def wfTrace (w : World) : List Event :=
  if w.clock - w.lastRequestTime < MIN_REQUEST_GAP then
    [Event.sleep (MIN_REQUEST_GAP - (w.clock - w.lastRequestTime))]
  else []

/-- Count of requests of one kind in a trace. -/
def countKind (k : ReqKind) (evs : List Event) : Nat :=
  evs.countP fun e => decide (e = Event.request k)

/-- A fully healthy network outcome: status 200, two cookie directives
(one carrying an attribute flag), a body with `records`. -/
def okNetOutcome : NetOutcome :=
  { netFail := none, status := 200, setCookie := ["nsit=a1; Path=/", "bm=x2"],
    body := { records := true, blob := 5 }, duration := 7 }

/-- A blocked data outcome: HTTP 403, no cookies, no `records`. -/
def blockedOutcome : NetOutcome :=
  { netFail := none, status := 403, setCookie := [],
    body := { records := false, blob := 0 }, duration := 7 }

/-- Every request of every kind succeeds. -/
def envHappy : Env := { net := fun _ _ => okNetOutcome, rand := fun _ => 0 }

/-- Handshake succeeds, the data endpoint always answers 403. -/
def envBlockedData : Env :=
  { net := fun k _ =>
      match k with
      | .dataEndpoint => blockedOutcome
      | _ => okNetOutcome,
    rand := fun _ => 0 }

/-- The landing page times out at the network level; everything else is
healthy. -/
def envHomeDown : Env :=
  { net := fun k _ =>
      match k with
      | .homepage => { okNetOutcome with netFail := some .netTimeout }
      | _ => okNetOutcome,
    rand := fun _ => 0 }

/-- Process start: empty session store, zero counters. -/
def freshWorld : World :=
  { sess := { cookies := none, timestamp := none, ttl := 300000, consecutiveFailures := 0 },
    lastRequestTime := 0, clock := 0,
    counts := { homepage := 0, warmDeriv := 0, warmOC := 0, dataReq := 0 }, randCount := 0 }

/-- A world holding a valid (fresh) session token. -/
def validWorld : World :=
  { sess := { cookies := some ("tok=1"), timestamp := some 1000, ttl := 300000, consecutiveFailures := 0 },
    lastRequestTime := 0, clock := 2000,
    counts := { homepage := 0, warmDeriv := 0, warmOC := 0, dataReq := 0 }, randCount := 0 }

/-- A world holding a long-expired session token. -/
def staleWorld : World :=
  { sess := { cookies := some ("old=1"), timestamp := some 0, ttl := 300000, consecutiveFailures := 0 },
    lastRequestTime := 0, clock := 1000000,
    counts := { homepage := 0, warmDeriv := 0, warmOC := 0, dataReq := 0 }, randCount := 0 }

/-- A world whose failure streak has hit the circuit-breaker threshold. -/
def hotWorld : World :=
  { sess := { cookies := some ("tok=1"), timestamp := some 1000, ttl := 300000, consecutiveFailures := 3 },
    lastRequestTime := 0, clock := 2000,
    counts := { homepage := 0, warmDeriv := 0, warmOC := 0, dataReq := 0 }, randCount := 0 }

theorem bind_app {α β : Type} (x : M α) (f : α → M β) (env : Env) (w : World) :
    (x >>= f) env w =
      match x env w with
      | (.ok a, w1, ev) =>
        match f a env w1 with
        | (r, w2, ev2) => (r, w2, ev ++ ev2)
      | (.error e, w1, ev) => (.error e, w1, ev) := rfl

theorem pure_app {α : Type} (a : α) (env : Env) (w : World) :
    (pure a : M α) env w = (.ok a, w, []) := rfl

theorem wfrl_eq (env : Env) (w : World) :
    waitForRateLimit env w =
      if w.clock - w.lastRequestTime < MIN_REQUEST_GAP then
        (.ok (), { w with
            clock := w.clock + (MIN_REQUEST_GAP - (w.clock - w.lastRequestTime)),
            lastRequestTime := w.clock + (MIN_REQUEST_GAP - (w.clock - w.lastRequestTime)) },
          [Event.sleep (MIN_REQUEST_GAP - (w.clock - w.lastRequestTime))])
      else
        (.ok (), { w with lastRequestTime := w.clock }, []) := by
  by_cases h : w.clock - w.lastRequestTime < MIN_REQUEST_GAP <;>
    simp only [waitForRateLimit, bind, pure, M.bind, M.pure, dateNow, getLastReq,
      setLastReq, jsSleep, if_pos, if_neg, h, if_true, if_false] <;>
    rfl

theorem wfrl_ok (env : Env) (w : World) : (waitForRateLimit env w).1 = .ok () := by
  rw [wfrl_eq]; split <;> rfl

theorem wfrl_frame (env : Env) (w : World) :
    ((waitForRateLimit env w).2.1).sess = w.sess ∧
    ((waitForRateLimit env w).2.1).counts = w.counts ∧
    ((waitForRateLimit env w).2.1).randCount = w.randCount := by
  rw [wfrl_eq]; split <;> exact ⟨rfl, rfl, rfl⟩

theorem wfrl_sleeps (env : Env) (w : World) :
    ∀ e ∈ (waitForRateLimit env w).2.2, ∃ ms, e = Event.sleep ms := by
  rw [wfrl_eq]; split <;> simp

theorem wfrl_gap (env : Env) (w : World) (h : w.lastRequestTime ≤ w.clock) :
    w.lastRequestTime + MIN_REQUEST_GAP ≤ ((waitForRateLimit env w).2.1).lastRequestTime ∧
    ((waitForRateLimit env w).2.1).clock = ((waitForRateLimit env w).2.1).lastRequestTime := by
  rw [wfrl_eq]; split <;> constructor <;> simp_all [MIN_REQUEST_GAP] <;> omega

theorem gateRuns_chain (env : Env) : ∀ (ds : List Nat) (w : World),
    w.lastRequestTime ≤ w.clock →
    List.Chain' (fun a b => a + MIN_REQUEST_GAP ≤ b) (gateRuns env ds w).2 ∧
    ∀ t ∈ (gateRuns env ds w).2, w.lastRequestTime + MIN_REQUEST_GAP ≤ t := by
  intro ds
  induction ds with
  | nil => intro w _; simp [gateRuns]
  | cons d ds ih =>
    intro w h
    have h1 : ({ w with clock := w.clock + d } : World).lastRequestTime ≤
        ({ w with clock := w.clock + d } : World).clock := by
      simp; omega
    obtain ⟨hgap, hclk⟩ := wfrl_gap env { w with clock := w.clock + d } h1
    set w2 := (waitForRateLimit env { w with clock := w.clock + d }).2.1 with hw2
    have hgap' : w.lastRequestTime + MIN_REQUEST_GAP ≤ w2.lastRequestTime := by
      simpa using hgap
    have h2 : w2.lastRequestTime ≤ w2.clock := le_of_eq hclk.symm
    obtain ⟨ihc, ihb⟩ := ih w2 h2
    constructor
    · simp only [gateRuns]
      exact List.chain'_cons'.mpr ⟨fun t ht => ihb t (List.mem_of_mem_head? ht), ihc⟩
    · intro t ht
      simp only [gateRuns, List.mem_cons] at ht
      rcases ht with rfl | ht
      · exact hgap'
      · have := ihb t ht
        omega

theorem pure_bind {α β : Type} (a : α) (f : α → M β) : (pure a : M α) >>= f = f a := rfl

theorem bind_ok {α β : Type} {x : M α} {env : Env} {w : World} {a : α} {w1 : World}
    {ev1 : List Event} (f : α → M β) (hx : x env w = (.ok a, w1, ev1)) :
    (x >>= f) env w = ((f a env w1).1, (f a env w1).2.1, ev1 ++ (f a env w1).2.2) := by
  rw [bind_app, hx]

theorem bind_err {α β : Type} {x : M α} {env : Env} {w : World} {e : JsError} {w1 : World}
    {ev1 : List Event} (f : α → M β) (hx : x env w = (.error e, w1, ev1)) :
    (x >>= f) env w = (.error e, w1, ev1) := by
  rw [bind_app, hx]

theorem tryCatch_ok {α : Type} {x : M α} {env : Env} {w : World} {a : α} {w1 : World}
    {ev1 : List Event} (h : JsError → M α) (hx : x env w = (.ok a, w1, ev1)) :
    M.tryCatch x h env w = (.ok a, w1, ev1) := by
  unfold M.tryCatch; rw [hx]

theorem tryCatch_err {α : Type} {x : M α} {env : Env} {w : World} {e : JsError} {w1 : World}
    {ev1 : List Event} (h : JsError → M α) (hx : x env w = (.error e, w1, ev1)) :
    M.tryCatch x h env w =
      ((h e env w1).1, (h e env w1).2.1, ev1 ++ (h e env w1).2.2) := by
  unfold M.tryCatch; rw [hx]

theorem jsSleep_app (ms : Nat) (env : Env) (w : World) :
    jsSleep ms env w = (.ok (), { w with clock := w.clock + ms }, [Event.sleep ms]) := rfl

theorem modifySess_app (f : SessionData → SessionData) (env : Env) (w : World) :
    modifySess f env w = (.ok (), { w with sess := f w.sess }, []) := rfl

theorem randDraw_app (env : Env) (w : World) :
    randDraw env w = (.ok (env.rand w.randCount), { w with randCount := w.randCount + 1 }, []) := rfl

theorem throwJs_app {α : Type} (e : JsError) (env : Env) (w : World) :
    (throwJs e : M α) env w = (.error e, w, []) := rfl

theorem wfrl_ex (env : Env) (w : World) :
    ∃ w1 evs, waitForRateLimit env w = (.ok (), w1, evs) ∧
      w1.sess = w.sess ∧ w1.counts = w.counts ∧ w1.randCount = w.randCount ∧
      w.clock ≤ w1.clock ∧ ∀ e ∈ evs, ∃ ms, e = Event.sleep ms := by
  rw [wfrl_eq]; split
  · refine ⟨_, _, rfl, rfl, rfl, rfl, by simp, by simp⟩
  · refine ⟨_, _, rfl, rfl, rfl, rfl, by simp, by simp⟩

theorem axios_ok {env : Env} {k : ReqKind} {v : Nat → Bool} {w : World}
    (hnf : (env.net k (w.counts.get k)).netFail = none)
    (hv : v (env.net k (w.counts.get k)).status = true) :
    axiosGet k v env w =
      (.ok { status := (env.net k (w.counts.get k)).status,
             setCookie := (env.net k (w.counts.get k)).setCookie,
             body := (env.net k (w.counts.get k)).body },
       { w with counts := w.counts.bump k,
                clock := w.clock + (env.net k (w.counts.get k)).duration },
       [Event.request k]) := by
  simp only [axiosGet, hnf, hv, if_true]

theorem wfrl_eq2 (env : Env) (w : World) :
    waitForRateLimit env w =
      (.ok (), { w with clock := wfClock w, lastRequestTime := wfClock w }, wfTrace w) := by
  rw [wfrl_eq]; unfold wfClock wfPad wfTrace; split <;> simp

theorem countKind_append (k : ReqKind) (l1 l2 : List Event) :
    countKind k (l1 ++ l2) = countKind k l1 + countKind k l2 :=
  List.countP_append _ _ _

theorem countKind_wfTrace (k : ReqKind) (w : World) : countKind k (wfTrace w) = 0 := by
  unfold wfTrace; split <;> simp [countKind]

theorem mbind_app {α β : Type} (x : M α) (f : α → M β) (env : Env) (w : World) :
    M.bind x f env w =
      match x env w with
      | (.ok a, w1, ev) =>
        match f a env w1 with
        | (r, w2, ev2) => (r, w2, ev ++ ev2)
      | (.error e, w1, ev) => (.error e, w1, ev) := rfl

theorem mpure_app {α : Type} (a : α) (env : Env) (w : World) :
    (M.pure a : M α) env w = (.ok a, w, []) := rfl

theorem countKind_nil (k : ReqKind) : countKind k [] = 0 := rfl

theorem countKind_cons (k : ReqKind) (e : Event) (l : List Event) :
    countKind k (e :: l) = countKind k l + if e = Event.request k then 1 else 0 := by
  simp [countKind, List.countP_cons]

theorem initHandshake_facts (env : Env) (now : Nat) (w : World) (hh : handshakeEnvOk env.net) :
    (initHandshake now env w).1 =
      .ok (cookieHeaderOfDirectives ((env.net .homepage w.counts.homepage).setCookie)) ∧
    ((initHandshake now env w).2.1).sess =
      { cookies := some (cookieHeaderOfDirectives ((env.net .homepage w.counts.homepage).setCookie)),
        timestamp := some now, ttl := w.sess.ttl, consecutiveFailures := 0 } ∧
    ((initHandshake now env w).2.1).counts.dataReq = w.counts.dataReq ∧
    ((initHandshake now env w).2.1).randCount = w.randCount ∧
    countKind .dataEndpoint ((initHandshake now env w).2.2) = 0 ∧
    countKind .homepage ((initHandshake now env w).2.2) = 1 ∧
    w.clock + 9000 ≤ ((initHandshake now env w).2.1).clock := by
  obtain ⟨hh1, hh2, hh3⟩ := hh
  have hA : ∀ n, (env.net .homepage n).netFail = none := fun n => (hh1 n).1
  have hB : ∀ n, (env.net .homepage n).status = 200 := fun n => (hh1 n).2.1
  have hC : ∀ n, ((env.net .homepage n).setCookie).isEmpty = false := by
    intro n
    cases h : (env.net .homepage n).setCookie with
    | nil => exact absurd h (hh1 n).2.2
    | cons a l => rfl
  have hC2 : ∀ n, ¬((env.net .homepage n).setCookie = []) := fun n => (hh1 n).2.2
  have hD : ∀ n, (env.net .warmDeriv n).netFail = none := hh2
  have hE : ∀ n, (env.net .warmOC n).netFail = none := fun n => (hh3 n).1
  have hF : ∀ n, (decide (200 ≤ (env.net .warmOC n).status)
      && decide ((env.net .warmOC n).status < 300)) = true := by
    intro n
    rw [Bool.and_eq_true, decide_eq_true_eq, decide_eq_true_eq]
    exact ⟨(hh3 n).2.1, (hh3 n).2.2⟩
  refine ⟨?_, ?_, ?_, ?_, ?_, ?_, ?_⟩ <;>
    simp [initHandshake, bind_app, pure_app, mbind_app, mpure_app, wfrl_eq2, wfClock,
      axiosGet, jsSleep, modifySess, throwJs, Counts.get, Counts.bump,
      hA, hB, hC, hC2, hD, hE, hF,
      countKind_append, countKind_wfTrace, countKind_cons, countKind_nil] <;>
    try omega

theorem initHandshake_split (env : Env) (now : Nat) (w : World) :
    (∃ cs, (initHandshake now env w).1 = .ok cs ∧
      ((initHandshake now env w).2.1).sess =
        { cookies := some cs, timestamp := some now, ttl := w.sess.ttl,
          consecutiveFailures := 0 }) ∨
    ((∃ e, (initHandshake now env w).1 = .error e) ∧
      ((initHandshake now env w).2.1).sess = w.sess) := by
  rcases hnf : (env.net .homepage w.counts.homepage).netFail with _ | e1
  case some =>
    right
    simp [initHandshake, bind_app, pure_app, mbind_app, mpure_app, wfrl_eq2, wfClock,
      axiosGet, jsSleep, modifySess, throwJs, Counts.get, Counts.bump, hnf]
  case none =>
    by_cases hval : 200 ≤ (env.net .homepage w.counts.homepage).status ∧
        (env.net .homepage w.counts.homepage).status < 500
    case neg =>
      right
      simp [initHandshake, bind_app, pure_app, mbind_app, mpure_app, wfrl_eq2, wfClock,
        axiosGet, jsSleep, modifySess, throwJs, Counts.get, Counts.bump, hnf, hval]
    case pos =>
      by_cases hst : (env.net .homepage w.counts.homepage).status = 200
      case neg =>
        right
        simp [initHandshake, bind_app, pure_app, mbind_app, mpure_app, wfrl_eq2, wfClock,
          axiosGet, jsSleep, modifySess, throwJs, Counts.get, Counts.bump, hnf, hval, hst]
      case pos =>
        by_cases hck : (env.net .homepage w.counts.homepage).setCookie = []
        case pos =>
          right
          simp [initHandshake, bind_app, pure_app, mbind_app, mpure_app, wfrl_eq2, wfClock,
            axiosGet, jsSleep, modifySess, throwJs, Counts.get, Counts.bump, hnf, hval, hst, hck]
        case neg =>
          rcases hnf2 : (env.net .warmDeriv w.counts.warmDeriv).netFail with _ | e2
          case some =>
            right
            simp [initHandshake, bind_app, pure_app, mbind_app, mpure_app, wfrl_eq2, wfClock,
              axiosGet, jsSleep, modifySess, throwJs, Counts.get, Counts.bump, hnf, hval, hst,
              hck, hnf2]
          case none =>
            rcases hnf3 : (env.net .warmOC w.counts.warmOC).netFail with _ | e3
            case some =>
              right
              simp [initHandshake, bind_app, pure_app, mbind_app, mpure_app, wfrl_eq2, wfClock,
                axiosGet, jsSleep, modifySess, throwJs, Counts.get, Counts.bump, hnf, hval, hst,
                hck, hnf2, hnf3]
            case none =>
              by_cases hv3 : 200 ≤ (env.net .warmOC w.counts.warmOC).status ∧
                  (env.net .warmOC w.counts.warmOC).status < 300
              case neg =>
                right
                simp [initHandshake, bind_app, pure_app, mbind_app, mpure_app, wfrl_eq2, wfClock,
                  axiosGet, jsSleep, modifySess, throwJs, Counts.get, Counts.bump, hnf, hval, hst,
                  hck, hnf2, hnf3, hv3]
              case pos =>
                left
                simp [initHandshake, bind_app, pure_app, mbind_app, mpure_app, wfrl_eq2, wfClock,
                  axiosGet, jsSleep, modifySess, throwJs, Counts.get, Counts.bump, hnf, hval, hst,
                  hck, hnf2, hnf3, hv3]

theorem initCatch_app (e : JsError) (env : Env) (w : World) :
    initCatch e env w =
      (.error e,
       { w with sess := { w.sess with consecutiveFailures := w.sess.consecutiveFailures + 1 } },
       []) := rfl

theorem initNSE_reuse (env : Env) (w : World) (c : String)
    (hc : w.sess.cookies = some c)
    (hv : w.clock - tsVal w.sess.timestamp < w.sess.ttl) :
    initNSESession false env w = (.ok c, w, []) := by
  simp [initNSESession, bind_app, mbind_app, pure_app, mpure_app, dateNow, getSess, hc, hv]

theorem initNSE_else (env : Env) (f : Bool) (w : World)
    (hg : ¬((f = false ∧ w.sess.cookies.isSome = true)
      ∧ w.clock - tsVal w.sess.timestamp < w.sess.ttl)) :
    initNSESession f env w = M.tryCatch (initHandshake w.clock) initCatch env w := by
  simp [initNSESession, bind_app, mbind_app, pure_app, mpure_app, dateNow, getSess, hg]

theorem initNSE_err_inc (env : Env) (f : Bool) (w : World) (e : JsError)
    (h : (initNSESession f env w).1 = .error e) :
    ((initNSESession f env w).2.1).sess.consecutiveFailures = w.sess.consecutiveFailures + 1 := by
  by_cases hg : (f = false ∧ w.sess.cookies.isSome = true)
      ∧ w.clock - tsVal w.sess.timestamp < w.sess.ttl
  · obtain ⟨⟨hf, hsome⟩, hlt⟩ := hg
    obtain ⟨c, hc⟩ := Option.isSome_iff_exists.mp hsome
    subst hf
    rw [initNSE_reuse env w c hc hlt] at h
    exact absurd h (by simp)
  · rcases hrun : initHandshake w.clock env w with ⟨r, w1, ev⟩
    rcases initHandshake_split env w.clock w with ⟨cs, hok, _⟩ | ⟨⟨e', herr⟩, hsess⟩
    · rw [hrun] at hok
      simp at hok
      subst hok
      rw [initNSE_else env f w hg, tryCatch_ok _ hrun] at h
      exact absurd h (by simp)
    · rw [hrun] at herr hsess
      simp at herr hsess
      subst herr
      rw [initNSE_else env f w hg, tryCatch_err _ hrun, initCatch_app]
      simp [hsess]

theorem initNSE_handshake_ok_sess (env : Env) (f : Bool) (w : World) (c : String)
    (hg : ¬((f = false ∧ w.sess.cookies.isSome = true)
      ∧ w.clock - tsVal w.sess.timestamp < w.sess.ttl))
    (h : (initNSESession f env w).1 = .ok c) :
    ((initNSESession f env w).2.1).sess =
      { cookies := some c, timestamp := some w.clock, ttl := w.sess.ttl,
        consecutiveFailures := 0 } := by
  rcases hrun : initHandshake w.clock env w with ⟨r, w1, ev⟩
  rcases initHandshake_split env w.clock w with ⟨cs, hok, hsess⟩ | ⟨⟨e', herr⟩, _⟩
  · rw [hrun] at hok hsess
    simp at hok hsess
    subst hok
    rw [initNSE_else env f w hg, tryCatch_ok _ hrun] at h ⊢
    simp at h ⊢
    rw [hsess, h]
  · rw [hrun] at herr
    simp at herr
    subst herr
    rw [initNSE_else env f w hg, tryCatch_err _ hrun, initCatch_app] at h
    exact absurd h (by simp)

theorem initNSE_handshake_dichotomy (env : Env) (f : Bool) (w : World)
    (hg : ¬((f = false ∧ w.sess.cookies.isSome = true)
      ∧ w.clock - tsVal w.sess.timestamp < w.sess.ttl)) :
    (∃ c, (initNSESession f env w).1 = .ok c ∧
      ((initNSESession f env w).2.1).sess =
        { cookies := some c, timestamp := some w.clock, ttl := w.sess.ttl,
          consecutiveFailures := 0 }) ∨
    (∃ e, (initNSESession f env w).1 = .error e ∧
      ((initNSESession f env w).2.1).sess.consecutiveFailures =
        w.sess.consecutiveFailures + 1) := by
  rcases hrun : initHandshake w.clock env w with ⟨r, w1, ev⟩
  rcases initHandshake_split env w.clock w with ⟨cs, hok, hsess⟩ | ⟨⟨e', herr⟩, hsess⟩
  · left
    rw [hrun] at hok hsess
    simp at hok hsess
    subst hok
    rw [initNSE_else env f w hg, tryCatch_ok _ hrun]
    exact ⟨cs, rfl, hsess⟩
  · right
    rw [hrun] at herr hsess
    simp at herr hsess
    subst herr
    rw [initNSE_else env f w hg, tryCatch_err _ hrun, initCatch_app]
    exact ⟨e', rfl, by simp [hsess]⟩

theorem initNSE_ok_any (env : Env) (f : Bool) (w : World) (hh : handshakeEnvOk env.net) :
    ∃ c, (initNSESession f env w).1 = .ok c ∧
      ((initNSESession f env w).2.1).counts.dataReq = w.counts.dataReq ∧
      ((initNSESession f env w).2.1).randCount = w.randCount ∧
      countKind .dataEndpoint ((initNSESession f env w).2.2) = 0 := by
  by_cases hg : (f = false ∧ w.sess.cookies.isSome = true)
      ∧ w.clock - tsVal w.sess.timestamp < w.sess.ttl
  · obtain ⟨⟨hf, hsome⟩, hlt⟩ := hg
    obtain ⟨c, hc⟩ := Option.isSome_iff_exists.mp hsome
    subst hf
    rw [initNSE_reuse env w c hc hlt]
    exact ⟨c, rfl, rfl, rfl, rfl⟩
  · obtain ⟨f1, _, f3, f4, f5, _, _⟩ := initHandshake_facts env w.clock w hh
    rcases hrun : initHandshake w.clock env w with ⟨r, w1, ev⟩
    rw [hrun] at f1 f3 f4 f5
    simp only at f1 f3 f4 f5
    subst f1
    rw [initNSE_else env f w hg, tryCatch_ok _ hrun]
    exact ⟨_, rfl, f3, f4, f5⟩

theorem dataStep_split (env : Env) (sym : String) (w : World) :
    (((dataStep sym env w).1 = .error (dataCauseT (env.net .dataEndpoint w.counts.dataReq)) ∧
       dataOutcomeOk (env.net .dataEndpoint w.counts.dataReq) = false ∧
       ((dataStep sym env w).2.1).sess = w.sess) ∨
      ((dataStep sym env w).1 = .ok (env.net .dataEndpoint w.counts.dataReq).body ∧
       dataOutcomeOk (env.net .dataEndpoint w.counts.dataReq) = true ∧
       ((dataStep sym env w).2.1).sess = { w.sess with consecutiveFailures := 0 })) ∧
    ((dataStep sym env w).2.1).counts.dataReq = w.counts.dataReq + 1 ∧
    ((dataStep sym env w).2.1).randCount = w.randCount ∧
    countKind .dataEndpoint ((dataStep sym env w).2.2) = 1 ∧
    countKind .homepage ((dataStep sym env w).2.2) = 0 := by
  rcases hnf : (env.net .dataEndpoint w.counts.dataReq).netFail with _ | e1
  case some =>
    refine ⟨.inl ⟨?_, ?_, ?_⟩, ?_, ?_, ?_, ?_⟩ <;>
      simp [dataStep, bind_app, pure_app, mbind_app, mpure_app, wfrl_eq2, wfClock, axiosGet,
        jsSleep, modifySess, throwJs, Counts.get, Counts.bump, hnf, dataCauseT, dataOutcomeOk,
        countKind_append, countKind_wfTrace, countKind_cons, countKind_nil]
  case none =>
    by_cases hval : 200 ≤ (env.net .dataEndpoint w.counts.dataReq).status ∧
        (env.net .dataEndpoint w.counts.dataReq).status < 500
    case neg =>
      have hs : (env.net .dataEndpoint w.counts.dataReq).status ≠ 200 := by omega
      refine ⟨.inl ⟨?_, ?_, ?_⟩, ?_, ?_, ?_, ?_⟩ <;>
        simp [dataStep, bind_app, pure_app, mbind_app, mpure_app, wfrl_eq2, wfClock, axiosGet,
          jsSleep, modifySess, throwJs, Counts.get, Counts.bump, hnf, hval, hs, dataCauseT,
          dataOutcomeOk, countKind_append, countKind_wfTrace, countKind_cons, countKind_nil]
    case pos =>
      by_cases h403 : (env.net .dataEndpoint w.counts.dataReq).status = 403
      case pos =>
        refine ⟨.inl ⟨?_, ?_, ?_⟩, ?_, ?_, ?_, ?_⟩ <;>
          simp [dataStep, bind_app, pure_app, mbind_app, mpure_app, wfrl_eq2, wfClock, axiosGet,
            jsSleep, modifySess, throwJs, Counts.get, Counts.bump, hnf, hval, h403, dataCauseT,
            dataOutcomeOk, countKind_append, countKind_wfTrace, countKind_cons, countKind_nil]
      case neg =>
        by_cases hst : (env.net .dataEndpoint w.counts.dataReq).status = 200
        case neg =>
          refine ⟨.inl ⟨?_, ?_, ?_⟩, ?_, ?_, ?_, ?_⟩ <;>
            simp [dataStep, bind_app, pure_app, mbind_app, mpure_app, wfrl_eq2, wfClock,
              axiosGet, jsSleep, modifySess, throwJs, Counts.get, Counts.bump, hnf, hval, h403,
              hst, dataCauseT, dataOutcomeOk, countKind_append, countKind_wfTrace,
              countKind_cons, countKind_nil]
        case pos =>
          by_cases hrec : (env.net .dataEndpoint w.counts.dataReq).body.records = true
          case pos =>
            refine ⟨.inr ⟨?_, ?_, ?_⟩, ?_, ?_, ?_, ?_⟩ <;>
              simp [dataStep, bind_app, pure_app, mbind_app, mpure_app, wfrl_eq2, wfClock,
                axiosGet, jsSleep, modifySess, throwJs, Counts.get, Counts.bump, hnf, hval,
                h403, hst, hrec, dataCauseT, dataOutcomeOk, countKind_append, countKind_wfTrace,
                countKind_cons, countKind_nil]
          case neg =>
            refine ⟨.inl ⟨?_, ?_, ?_⟩, ?_, ?_, ?_, ?_⟩ <;>
              simp [dataStep, bind_app, pure_app, mbind_app, mpure_app, wfrl_eq2, wfClock,
                axiosGet, jsSleep, modifySess, throwJs, Counts.get, Counts.bump, hnf, hval,
                h403, hst, hrec, dataCauseT, dataOutcomeOk, countKind_append, countKind_wfTrace,
                countKind_cons, countKind_nil]

theorem bind_err_proj {α β : Type} {x : M α} {env : Env} {w : World} {e : JsError}
    (f : α → M β) (hx : (x env w).1 = .error e) :
    (x >>= f) env w = (.error e, (x env w).2.1, (x env w).2.2) :=
  bind_err f (by rw [← hx])

theorem bind_ok_proj {α β : Type} {x : M α} {env : Env} {w : World} {a : α}
    (f : α → M β) (hx : (x env w).1 = .ok a) :
    (x >>= f) env w =
      ((f a env (x env w).2.1).1, (f a env (x env w).2.1).2.1,
        (x env w).2.2 ++ (f a env (x env w).2.1).2.2) :=
  bind_ok f (by rw [← hx])

theorem tryCatch_ok_proj {α : Type} {x : M α} {env : Env} {w : World} {a : α}
    (h : JsError → M α) (hx : (x env w).1 = .ok a) :
    M.tryCatch x h env w = (.ok a, (x env w).2.1, (x env w).2.2) :=
  tryCatch_ok h (by rw [← hx])

theorem tryCatch_err_proj {α : Type} {x : M α} {env : Env} {w : World} {e : JsError}
    (h : JsError → M α) (hx : (x env w).1 = .error e) :
    M.tryCatch x h env w =
      ((h e env (x env w).2.1).1, (h e env (x env w).2.1).2.1,
        (x env w).2.2 ++ (h e env (x env w).2.1).2.2) :=
  tryCatch_err h (by rw [← hx])

theorem attempt_fail (env : Env) (sym : String) (a : Nat) (w : World)
    (hh : handshakeEnvOk env.net)
    (hd : ∀ n, dataOutcomeOk (env.net .dataEndpoint n) = false) :
    (fetchAttemptBody sym a env w).1 =
      .error (dataCauseT (env.net .dataEndpoint w.counts.dataReq)) ∧
    ((fetchAttemptBody sym a env w).2.1).counts.dataReq = w.counts.dataReq + 1 ∧
    ((fetchAttemptBody sym a env w).2.1).randCount = w.randCount ∧
    countKind .dataEndpoint ((fetchAttemptBody sym a env w).2.2) = 1 := by
  obtain ⟨c, hok, hdr, hrc, hct⟩ := initNSE_ok_any env (decide (1 < a)) w hh
  have hbody : fetchAttemptBody sym a env w =
      ((dataStep sym env ((initNSESession (decide (1 < a)) env w).2.1)).1,
        (dataStep sym env ((initNSESession (decide (1 < a)) env w).2.1)).2.1,
        ((initNSESession (decide (1 < a)) env w).2.2) ++
          (dataStep sym env ((initNSESession (decide (1 < a)) env w).2.1)).2.2) := by
    show (initNSESession (decide (1 < a)) >>= fun _cookies => dataStep sym) env w = _
    exact bind_ok_proj _ hok
  rcases dataStep_split env sym ((initNSESession (decide (1 < a)) env w).2.1) with
    ⟨hdi, hfr1, hfr2, hfr3, hfr4⟩
  rcases hdi with ⟨he, _, _⟩ | ⟨_, htrue, _⟩
  · rw [hbody]
    refine ⟨?_, ?_, ?_, ?_⟩
    · simpa [hdr] using he
    · rw [hfr1, hdr]
    · rw [hfr2, hrc]
    · rw [countKind_append, hct, hfr3]
  · rw [hd] at htrue
    exact absurd htrue (by simp)

theorem attempt_ok_failures0 (env : Env) (sym : String) (a : Nat) (w : World) (d : RespData)
    (h : (fetchAttemptBody sym a env w).1 = .ok d) :
    ((fetchAttemptBody sym a env w).2.1).sess.consecutiveFailures = 0 := by
  rcases hr1 : (initNSESession (decide (1 < a)) env w).1 with e | c
  · have hbody : fetchAttemptBody sym a env w =
        (.error e, (initNSESession (decide (1 < a)) env w).2.1,
          (initNSESession (decide (1 < a)) env w).2.2) := by
      show (initNSESession (decide (1 < a)) >>= fun _cookies => dataStep sym) env w = _
      exact bind_err_proj _ hr1
    rw [hbody] at h
    exact absurd h (by simp)
  · have hbody : fetchAttemptBody sym a env w =
        ((dataStep sym env ((initNSESession (decide (1 < a)) env w).2.1)).1,
          (dataStep sym env ((initNSESession (decide (1 < a)) env w).2.1)).2.1,
          ((initNSESession (decide (1 < a)) env w).2.2) ++
            (dataStep sym env ((initNSESession (decide (1 < a)) env w).2.1)).2.2) := by
      show (initNSESession (decide (1 < a)) >>= fun _cookies => dataStep sym) env w = _
      exact bind_ok_proj _ hr1
    rw [hbody] at h ⊢
    rcases dataStep_split env sym ((initNSESession (decide (1 < a)) env w).2.1) with
      ⟨hdi, _, _, _, _⟩
    rcases hdi with ⟨he, _, _⟩ | ⟨_, _, hsess⟩
    · rw [he] at h
      exact absurd h (by simp)
    · rw [hsess]

theorem attemptAndWrap_fail (env : Env) (sym : String) (a : Nat) (w : World)
    (hh : handshakeEnvOk env.net)
    (hd : ∀ n, dataOutcomeOk (env.net .dataEndpoint n) = false) :
    (attemptAndWrap sym a env w).1 =
      .error (dataCauseT (env.net .dataEndpoint w.counts.dataReq)) ∧
    ((attemptAndWrap sym a env w).2.1).counts.dataReq = w.counts.dataReq + 1 ∧
    ((attemptAndWrap sym a env w).2.1).randCount = w.randCount ∧
    countKind .dataEndpoint ((attemptAndWrap sym a env w).2.2) = 1 := by
  obtain ⟨a1, a2, a3, a4⟩ := attempt_fail env sym a w hh hd
  have hw : attemptAndWrap sym a env w =
      (.error (dataCauseT (env.net .dataEndpoint w.counts.dataReq)),
        (fetchAttemptBody sym a env w).2.1, (fetchAttemptBody sym a env w).2.2) := by
    show (fetchAttemptBody sym a >>= fun d => pure (some d)) env w = _
    exact bind_err_proj _ a1
  rw [hw]
  exact ⟨rfl, a2, a3, a4⟩

theorem fetchLoop_step (sym : String) (retries : Int) (a : Nat) (fuel : Nat)
    (env : Env) (w : World) :
    fetchLoop sym retries a (fuel + 1) env w =
      match attemptAndWrap sym a env w with
      | (.ok d, w1, ev) => (.ok d, w1, ev)
      | (.error e, w1, ev) =>
        if (a : Int) = retries then
          (.error e,
            { w1 with sess :=
              { w1.sess with consecutiveFailures := w1.sess.consecutiveFailures + 1 } },
            ev)
        else
          ((fetchLoop sym retries (a + 1) fuel env
              { w1 with
                sess := { w1.sess with
                  consecutiveFailures := w1.sess.consecutiveFailures + 1 },
                randCount := w1.randCount + 1,
                clock := w1.clock + (15000 + env.rand w1.randCount) }).1,
           (fetchLoop sym retries (a + 1) fuel env
              { w1 with
                sess := { w1.sess with
                  consecutiveFailures := w1.sess.consecutiveFailures + 1 },
                randCount := w1.randCount + 1,
                clock := w1.clock + (15000 + env.rand w1.randCount) }).2.1,
           ev ++ Event.sleep (15000 + env.rand w1.randCount) ::
             (fetchLoop sym retries (a + 1) fuel env
                { w1 with
                  sess := { w1.sess with
                    consecutiveFailures := w1.sess.consecutiveFailures + 1 },
                  randCount := w1.randCount + 1,
                  clock := w1.clock + (15000 + env.rand w1.randCount) }).2.2) := by
  rcases hx : attemptAndWrap sym a env w with ⟨r, w1, ev⟩
  cases r with
  | ok d =>
    simp only [fetchLoop, tryCatch_ok _ hx, hx]
  | error e =>
    by_cases hcond : (a : Int) = retries
    · simp [fetchLoop, tryCatch_err _ hx, hx, hcond, bind_app, mbind_app, pure_app,
        mpure_app, modifySess, randDraw, jsSleep, throwJs]
    · simp [fetchLoop, tryCatch_err _ hx, hx, hcond, bind_app, mbind_app, pure_app,
        mpure_app, modifySess, randDraw, jsSleep, throwJs]

theorem fetchLoop_fail (env : Env) (sym : String) (retries : Int)
    (hh : handshakeEnvOk env.net)
    (hd : ∀ n, dataOutcomeOk (env.net .dataEndpoint n) = false) :
    ∀ (n : Nat) (a : Nat) (w : World), 1 ≤ n → (a : Int) + (n : Int) - 1 = retries →
    (fetchLoop sym retries a n env w).1 =
      .error (dataCauseT (env.net .dataEndpoint (w.counts.dataReq + (n - 1)))) ∧
    countKind .dataEndpoint ((fetchLoop sym retries a n env w).2.2) = n := by
  intro n
  induction n with
  | zero => intro a w h1 _; exact absurd h1 (by omega)
  | succ m ih =>
    intro a w _ hinv
    obtain ⟨a1, a2, a3, a4⟩ := attemptAndWrap_fail env sym a w hh hd
    rcases hx : attemptAndWrap sym a env w with ⟨r, w1, ev⟩
    rw [hx] at a1 a2 a3 a4
    simp only at a1 a2 a3 a4
    subst a1
    rw [fetchLoop_step, hx]
    dsimp only
    cases m with
    | zero =>
      have ha : (a : Int) = retries := by omega
      rw [if_pos ha]
      exact ⟨rfl, by simpa using a4⟩
    | succ k =>
      have hne : ¬((a : Int) = retries) := by omega
      rw [if_neg hne]
      have hW5 : ({ w1 with
          sess := { w1.sess with
            consecutiveFailures := w1.sess.consecutiveFailures + 1 },
          randCount := w1.randCount + 1,
          clock := w1.clock + (15000 + env.rand w1.randCount) } : World).counts.dataReq
          = w.counts.dataReq + 1 := a2
      obtain ⟨ih1, ih2⟩ := ih (a + 1)
        { w1 with
          sess := { w1.sess with
            consecutiveFailures := w1.sess.consecutiveFailures + 1 },
          randCount := w1.randCount + 1,
          clock := w1.clock + (15000 + env.rand w1.randCount) }
        (by omega) (by push_cast at hinv ⊢; omega)
      rw [hW5] at ih1
      constructor
      · rw [ih1]
        have : w.counts.dataReq + 1 + (k + 1 - 1) = w.counts.dataReq + (k + 1 + 1 - 1) := by
          omega
        rw [this]
      · rw [countKind_append, countKind_cons, ih2, a4]
        simp
        omega

theorem cooldown_ok (env : Env) (w : World) : (cooldownStep env w).1 = .ok () := by
  by_cases h : 3 ≤ w.sess.consecutiveFailures <;>
    simp [cooldownStep, bind_app, mbind_app, pure_app, mpure_app, getSess, jsSleep,
      modifySess, h]

theorem cooldown_hot (env : Env) (w : World) (h : 3 ≤ w.sess.consecutiveFailures) :
    cooldownStep env w =
      (.ok (),
       { w with
         sess := { w.sess with consecutiveFailures := 0 },
         clock := w.clock + 60000 },
       [Event.sleep 60000]) := by
  simp [cooldownStep, bind_app, mbind_app, pure_app, mpure_app, getSess, jsSleep,
    modifySess, h]

theorem cooldown_cold (env : Env) (w : World) (h : ¬ 3 ≤ w.sess.consecutiveFailures) :
    cooldownStep env w = (.ok (), w, []) := by
  simp [cooldownStep, bind_app, mbind_app, pure_app, mpure_app, getSess, jsSleep,
    modifySess, h]

theorem fetchOC_run (env : Env) (sym : String) (retries : Int) (w : World) :
    fetchOptionChain sym retries env w =
      ((fetchLoop sym retries 1 retries.toNat env ((cooldownStep env w).2.1)).1,
       (fetchLoop sym retries 1 retries.toNat env ((cooldownStep env w).2.1)).2.1,
       (cooldownStep env w).2.2 ++
         (fetchLoop sym retries 1 retries.toNat env ((cooldownStep env w).2.1)).2.2) := by
  show (cooldownStep >>= fun _ => fetchLoop sym retries 1 retries.toNat) env w = _
  exact bind_ok_proj _ (cooldown_ok env w)

theorem cooldown_frame (env : Env) (w : World) :
    ((cooldownStep env w).2.1).counts = w.counts ∧
    ((cooldownStep env w).2.1).randCount = w.randCount ∧
    countKind .dataEndpoint ((cooldownStep env w).2.2) = 0 ∧
    countReq ((cooldownStep env w).2.2) = 0 := by
  by_cases h : 3 ≤ w.sess.consecutiveFailures
  · rw [cooldown_hot env w h]
    exact ⟨rfl, rfl, rfl, rfl⟩
  · rw [cooldown_cold env w h]
    exact ⟨rfl, rfl, rfl, rfl⟩

theorem attemptAndWrap_ok_failures0 (env : Env) (sym : String) (a : Nat) (w : World)
    (o : Option RespData) (h : (attemptAndWrap sym a env w).1 = .ok o) :
    ((attemptAndWrap sym a env w).2.1).sess.consecutiveFailures = 0 := by
  rcases hb : (fetchAttemptBody sym a env w).1 with e | d
  · have hw : attemptAndWrap sym a env w =
        (.error e, (fetchAttemptBody sym a env w).2.1, (fetchAttemptBody sym a env w).2.2) := by
      show (fetchAttemptBody sym a >>= fun d => pure (some d)) env w = _
      exact bind_err_proj _ hb
    rw [hw] at h
    exact absurd h (by simp)
  · have hw : attemptAndWrap sym a env w =
        (.ok (some d), (fetchAttemptBody sym a env w).2.1, (fetchAttemptBody sym a env w).2.2) := by
      show (fetchAttemptBody sym a >>= fun d => pure (some d)) env w = _
      rw [bind_ok_proj _ hb]
      simp [pure_app]
    rw [hw]
    exact attempt_ok_failures0 env sym a w d hb

theorem fetchLoop_ok_failures0 (env : Env) (sym : String) (retries : Int) (d : RespData) :
    ∀ (fuel : Nat) (a : Nat) (w : World),
    (fetchLoop sym retries a fuel env w).1 = .ok (some d) →
    ((fetchLoop sym retries a fuel env w).2.1).sess.consecutiveFailures = 0 := by
  intro fuel
  induction fuel with
  | zero =>
    intro a w h
    exact absurd h (by simp [fetchLoop, pure_app, mpure_app])
  | succ k ih =>
    intro a w h
    rcases hx : attemptAndWrap sym a env w with ⟨r, w1, ev⟩
    rw [fetchLoop_step, hx] at h ⊢
    cases r with
    | ok o =>
      dsimp only at h ⊢
      have hthis := attemptAndWrap_ok_failures0 env sym a w o (by rw [hx])
      rw [hx] at hthis
      exact hthis
    | error e =>
      dsimp only at h ⊢
      by_cases hc : (a : Int) = retries
      · rw [if_pos hc] at h
        exact absurd h (by simp)
      · rw [if_neg hc] at h ⊢
        exact ih (a + 1) _ h

theorem ensure_reuse (env : Env) (w : World)
    (h1 : w.sess.cookies.isSome = true) (h2 : w.sess.timestamp.isSome = true)
    (h3 : w.clock - tsVal w.sess.timestamp < w.sess.ttl) :
    ensureSession env w = (.ok w.sess.cookies, w, []) := by
  simp [ensureSession, h1, h2, h3]

theorem ensure_store (env : Env) (w : World)
    (hnv : (w.sess.cookies.isSome && w.sess.timestamp.isSome
      && decide (w.clock - tsVal w.sess.timestamp < w.sess.ttl)) = false)
    (hnf : (env.net .homepage w.counts.homepage).netFail = none)
    (hst1 : 200 ≤ (env.net .homepage w.counts.homepage).status)
    (hst2 : (env.net .homepage w.counts.homepage).status < 300)
    (hck : (env.net .homepage w.counts.homepage).setCookie ≠ []) :
    (ensureSession env w).1 =
      .ok (some (String.intercalate ("; ") ((env.net .homepage w.counts.homepage).setCookie))) ∧
    ((ensureSession env w).2.1).sess.cookies =
      some (String.intercalate ("; ") ((env.net .homepage w.counts.homepage).setCookie)) := by
  have hckE : ((env.net .homepage w.counts.homepage).setCookie).isEmpty = false := by
    cases h : (env.net .homepage w.counts.homepage).setCookie with
    | nil => exact absurd h hck
    | cons a l => rfl
  constructor <;>
    simp [ensureSession, axiosGet, Counts.get, Counts.bump, hnv, hnf, hst1, hst2, hckE]

theorem ensure_swallow (env : Env) (w : World) (e : JsError)
    (hnv : (w.sess.cookies.isSome && w.sess.timestamp.isSome
      && decide (w.clock - tsVal w.sess.timestamp < w.sess.ttl)) = false)
    (hnf : (env.net .homepage w.counts.homepage).netFail = some e) :
    (ensureSession env w).1 = .ok w.sess.cookies ∧
    ((ensureSession env w).2.1).sess = w.sess ∧
    ((ensureSession env w).2.2) = [Event.request .homepage] := by
  refine ⟨?_, ?_, ?_⟩ <;>
    simp [ensureSession, axiosGet, Counts.get, Counts.bump, hnv, hnf]

theorem initHandshake_netfail (env : Env) (now : Nat) (w : World) (e : JsError)
    (h : (env.net .homepage w.counts.homepage).netFail = some e) :
    (initHandshake now env w).1 = .error e := by
  simp [initHandshake, bind_app, pure_app, mbind_app, mpure_app, wfrl_eq2, wfClock,
    axiosGet, jsSleep, modifySess, throwJs, Counts.get, Counts.bump, h]

theorem initNSE_forced_facts (env : Env) (w : World) (hh : handshakeEnvOk env.net) :
    (initNSESession true env w).1 =
      .ok (cookieHeaderOfDirectives ((env.net .homepage w.counts.homepage).setCookie)) ∧
    ((initNSESession true env w).2.1).sess =
      { cookies := some (cookieHeaderOfDirectives ((env.net .homepage w.counts.homepage).setCookie)),
        timestamp := some w.clock, ttl := w.sess.ttl, consecutiveFailures := 0 } ∧
    countKind .dataEndpoint ((initNSESession true env w).2.2) = 0 ∧
    countKind .homepage ((initNSESession true env w).2.2) = 1 ∧
    w.clock + 9000 ≤ ((initNSESession true env w).2.1).clock ∧
    ((initNSESession true env w).2.1).counts.dataReq = w.counts.dataReq ∧
    ((initNSESession true env w).2.1).randCount = w.randCount := by
  have hg : ¬((true = false ∧ w.sess.cookies.isSome = true)
      ∧ w.clock - tsVal w.sess.timestamp < w.sess.ttl) := by simp
  obtain ⟨f1, f2, f3, f4, f5, f6, f7⟩ := initHandshake_facts env w.clock w hh
  rcases hrun : initHandshake w.clock env w with ⟨r, w1, ev⟩
  rw [hrun] at f1 f2 f3 f4 f5 f6 f7
  simp only at f1 f2 f3 f4 f5 f6 f7
  subst f1
  rw [initNSE_else env true w hg, tryCatch_ok _ hrun]
  exact ⟨rfl, f2, f5, f6, f7, f3, f4⟩

/-- C1: with a stored token and an age strictly below the ttl, session
acquisition without forced refresh (`initializeNSESession(false)` of the
gated variant, and `ensureSession` of `src/server.js`) performs zero
network requests (empty event trace), leaves the whole state unchanged,
and returns the stored token. -/
theorem c1_valid_session_reuse (env : Env) (w : World) (c : String)
    (hc : w.sess.cookies = some c)
    (ht : w.sess.timestamp.isSome = true)
    (hv : w.clock - tsVal w.sess.timestamp < w.sess.ttl) :
    initNSESession false env w = (.ok c, w, []) ∧
    ensureSession env w = (.ok (some c), w, []) := by
  refine ⟨initNSE_reuse env w c hc hv, ?_⟩
  have h1 : w.sess.cookies.isSome = true := by rw [hc]; rfl
  rw [ensure_reuse env w h1 ht hv, hc]

/-- C2: when the session handshake always succeeds but every
data-endpoint outcome is a failure (non-200 status, network failure, or
missing `records`), `fetchOptionChain(symbol, k)` with `k ≥ 1` issues
exactly `k` data-endpoint requests and then propagates an error equal to
the classification of the `k`-th (last) data outcome. -/
theorem c2_retry_exhaustion (env : Env) (sym : String) (k : Nat) (w : World)
    (hk : 1 ≤ k) (hh : handshakeEnvOk env.net)
    (hd : ∀ n, dataOutcomeOk (env.net .dataEndpoint n) = false) :
    (fetchOptionChain sym (k : Int) env w).1 =
      .error (dataCauseT (env.net .dataEndpoint (w.counts.dataReq + (k - 1)))) ∧
    countKind .dataEndpoint ((fetchOptionChain sym (k : Int) env w).2.2) = k := by
  obtain ⟨hc1, hc2, hc3, _⟩ := cooldown_frame env w
  have htn : ((k : Int)).toNat = k := Int.toNat_natCast k
  obtain ⟨l1, l2⟩ := fetchLoop_fail env sym (k : Int) hh hd k 1
    ((cooldownStep env w).2.1) hk (by omega)
  rw [fetchOC_run, htn]
  constructor
  · rw [l1, hc1]
  · rw [countKind_append, hc3, l2]
    omega

/-- C3: the rate governor: over any sequence of gated calls, with the
clock never behind the recorded `lastRequestTime`, consecutive recorded
completion times are at least `MIN_REQUEST_GAP` (8000 ms) apart, and the
gate itself always returns successfully (it can only delay). -/
theorem c3_rate_governor_min_gap (env : Env) (ds : List Nat) (w : World)
    (h : w.lastRequestTime ≤ w.clock) :
    List.Chain' (fun t1 t2 => t1 + MIN_REQUEST_GAP ≤ t2) (gateRuns env ds w).2 ∧
    ∀ (env2 : Env) (w2 : World), (waitForRateLimit env2 w2).1 = .ok () :=
  ⟨(gateRuns_chain env ds w h).1, fun env2 w2 => wfrl_ok env2 w2⟩

/-- C4: when `consecutiveFailures ≥ 3` at entry, the first event of
`fetchOptionChain`'s trace is the 60000 ms cooldown sleep (so it
precedes every request of the call), and the streak counter is 0 in the
state immediately after the cooldown step. -/
theorem c4_circuit_breaker_cooldown (env : Env) (sym : String) (r : Int) (w : World)
    (h : 3 ≤ w.sess.consecutiveFailures) :
    ((cooldownStep env w).2.1).sess.consecutiveFailures = 0 ∧
    (fetchOptionChain sym r env w).2.2 =
      Event.sleep 60000 ::
        (fetchLoop sym r 1 r.toNat env ((cooldownStep env w).2.1)).2.2 := by
  rw [fetchOC_run, cooldown_hot env w h]
  exact ⟨rfl, rfl⟩

/-- C9 (implicit): after a successful forced acquisition the stored
`timestamp` equals the clock read at entry, while the handshake itself
advances the clock by at least 9000 ms (the three fixed delays), so the
session's remaining ttl at completion is already shortened by the
handshake's duration. -/
theorem c9_acquiredAt_entry_clock (env : Env) (w : World) (hh : handshakeEnvOk env.net) :
    ((initNSESession true env w).2.1).sess.timestamp = some w.clock ∧
    w.clock + 9000 ≤ ((initNSESession true env w).2.1).clock := by
  obtain ⟨_, f2, _, _, f5, _, _⟩ := initNSE_forced_facts env w hh
  exact ⟨by rw [f2], f5⟩

/-- C10 (implicit): with `retries ≤ 0` the loop body never runs:
`fetchOptionChain` returns JavaScript `undefined` (modelled `none`) —
neither a payload nor an error — and issues no request of any kind. -/
theorem c10_nonpositive_retries_undefined (env : Env) (sym : String) (r : Int)
    (w : World) (hr : r ≤ 0) :
    (fetchOptionChain sym r env w).1 = .ok none ∧
    countReq ((fetchOptionChain sym r env w).2.2) = 0 := by
  obtain ⟨_, _, _, hc4⟩ := cooldown_frame env w
  have htn : r.toNat = 0 := Int.toNat_of_nonpos hr
  rw [fetchOC_run, htn]
  constructor
  · rfl
  · have hnil : (fetchLoop sym r 1 0 env ((cooldownStep env w).2.1)).2.2 = [] := rfl
    rw [hnil, List.append_nil, hc4]

/-- C5: the failure-streak counter law of the gated variant: (i) every
acquisition that propagates an error leaves the counter at exactly its
entry value plus one; (ii) every acquisition that takes the handshake
path (forced, or stale/empty cache — the cache-hit guard fails) and
succeeds resets it to 0 (the store's `set`); (iii) every successful
data attempt resets it to 0; (iv) a successful `fetchOptionChain`
leaves it at 0, so the next call takes the non-cooldown path; (v) every
failed fetch attempt increments the counter by exactly one over the
value the attempt body left: a terminal attempt (`attempt === retries`)
propagates the error with the counter at exactly +1, and a non-terminal
attempt resumes the loop at the next attempt number from a state whose
counter is exactly +1. -/
theorem c5_failure_streak_law :
    (∀ (env : Env) (f : Bool) (w : World) (e : JsError),
      (initNSESession f env w).1 = .error e →
      ((initNSESession f env w).2.1).sess.consecutiveFailures =
        w.sess.consecutiveFailures + 1) ∧
    (∀ (env : Env) (f : Bool) (w : World) (c : String),
      ¬((f = false ∧ w.sess.cookies.isSome = true)
        ∧ w.clock - tsVal w.sess.timestamp < w.sess.ttl) →
      (initNSESession f env w).1 = .ok c →
      ((initNSESession f env w).2.1).sess.consecutiveFailures = 0) ∧
    (∀ (env : Env) (sym : String) (a : Nat) (w : World) (d : RespData),
      (fetchAttemptBody sym a env w).1 = .ok d →
      ((fetchAttemptBody sym a env w).2.1).sess.consecutiveFailures = 0) ∧
    (∀ (env : Env) (sym : String) (r : Int) (w : World) (d : RespData),
      (fetchOptionChain sym r env w).1 = .ok (some d) →
      ((fetchOptionChain sym r env w).2.1).sess.consecutiveFailures = 0 ∧
      ¬ 3 ≤ ((fetchOptionChain sym r env w).2.1).sess.consecutiveFailures) ∧
    (∀ (env : Env) (sym : String) (r : Int) (a : Nat) (fuel : Nat) (w : World) (e : JsError),
      (attemptAndWrap sym a env w).1 = .error e →
      (((a : Int) = r →
        (fetchLoop sym r a (fuel + 1) env w).1 = .error e ∧
        ((fetchLoop sym r a (fuel + 1) env w).2.1).sess.consecutiveFailures =
          ((attemptAndWrap sym a env w).2.1).sess.consecutiveFailures + 1) ∧
       (¬((a : Int) = r) →
        ∃ w5, w5.sess.consecutiveFailures =
            ((attemptAndWrap sym a env w).2.1).sess.consecutiveFailures + 1 ∧
          (fetchLoop sym r a (fuel + 1) env w).1 =
            (fetchLoop sym r (a + 1) fuel env w5).1 ∧
          ((fetchLoop sym r a (fuel + 1) env w).2.1) =
            (fetchLoop sym r (a + 1) fuel env w5).2.1))) := by
  refine ⟨initNSE_err_inc, ?_, attempt_ok_failures0, ?_, ?_⟩
  · intro env f w c hg h
    rw [initNSE_handshake_ok_sess env f w c hg h]
  · intro env sym r w d h
    rw [fetchOC_run] at h ⊢
    dsimp only at h ⊢
    have h0 := fetchLoop_ok_failures0 env sym r d r.toNat 1 ((cooldownStep env w).2.1) h
    exact ⟨h0, by omega⟩
  · intro env sym r a fuel w e hx
    rcases hxx : attemptAndWrap sym a env w with ⟨rr, w1, ev⟩
    rw [hxx] at hx
    simp only at hx
    subst hx
    constructor
    · intro ha
      rw [fetchLoop_step, hxx]
      dsimp only
      rw [if_pos ha]
      exact ⟨rfl, rfl⟩
    · intro hne
      refine ⟨{ w1 with
          sess := { w1.sess with
            consecutiveFailures := w1.sess.consecutiveFailures + 1 },
          randCount := w1.randCount + 1,
          clock := w1.clock + (15000 + env.rand w1.randCount) }, rfl, ?_, ?_⟩
      · rw [fetchLoop_step, hxx]
        dsimp only
        rw [if_neg hne]
      · rw [fetchLoop_step, hxx]
        dsimp only
        rw [if_neg hne]

/-- C8: forced-refresh policy: (a) a forced acquisition performs the
landing-page request (the handshake) even though the stored session may
be perfectly valid; (b) within a fetch, attempt 1 with a valid session
performs no handshake request at all; (c) every attempt numbered 2 or
higher performs the handshake (forced refresh) regardless of session
validity. -/
theorem c8_forced_refresh_policy :
    (∀ (env : Env) (w : World), handshakeEnvOk env.net →
      countKind .homepage ((initNSESession true env w).2.2) = 1) ∧
    (∀ (env : Env) (sym : String) (w : World) (c : String),
      w.sess.cookies = some c →
      w.clock - tsVal w.sess.timestamp < w.sess.ttl →
      countKind .homepage ((fetchAttemptBody sym 1 env w).2.2) = 0) ∧
    (∀ (env : Env) (sym : String) (a : Nat) (w : World), handshakeEnvOk env.net →
      2 ≤ a →
      countKind .homepage ((fetchAttemptBody sym a env w).2.2) = 1) := by
  refine ⟨?_, ?_, ?_⟩
  · intro env w hh
    exact (initNSE_forced_facts env w hh).2.2.2.1
  · intro env sym w c hc hv
    have hinit := initNSE_reuse env w c hc hv
    have hbody : fetchAttemptBody sym 1 env w =
        ((dataStep sym env ((initNSESession false env w).2.1)).1,
          (dataStep sym env ((initNSESession false env w).2.1)).2.1,
          ((initNSESession false env w).2.2) ++
            (dataStep sym env ((initNSESession false env w).2.1)).2.2) := by
      show (initNSESession false >>= fun _cookies => dataStep sym) env w = _
      exact bind_ok_proj _ (by rw [hinit])
    rw [hbody, countKind_append]
    obtain ⟨_, _, _, _, h4⟩ := dataStep_split env sym ((initNSESession false env w).2.1)
    rw [h4]
    rw [hinit]
    rfl
  · intro env sym a w hh h2
    have ha : (decide (1 < a) : Bool) = true := by
      simp only [decide_eq_true_eq]
      omega
    obtain ⟨f1, _, _, f4, _, _, _⟩ := initNSE_forced_facts env w hh
    have hbody : fetchAttemptBody sym a env w =
        ((dataStep sym env ((initNSESession (decide (1 < a)) env w).2.1)).1,
          (dataStep sym env ((initNSESession (decide (1 < a)) env w).2.1)).2.1,
          ((initNSESession (decide (1 < a)) env w).2.2) ++
            (dataStep sym env ((initNSESession (decide (1 < a)) env w).2.1)).2.2) := by
      show (initNSESession (decide (1 < a)) >>= fun _cookies => dataStep sym) env w = _
      have hok : (initNSESession (decide (1 < a)) env w).1 =
          .ok (cookieHeaderOfDirectives ((env.net .homepage w.counts.homepage).setCookie)) := by
        rw [ha]
        exact f1
      exact bind_ok_proj _ hok
    rw [hbody, countKind_append, ha]
    obtain ⟨_, _, _, _, h4⟩ := dataStep_split env sym ((initNSESession true env w).2.1)
    rw [h4, f4]

theorem hh_happy : handshakeEnvOk envHappy.net :=
  ⟨fun _ => ⟨rfl, rfl, (by decide : okNetOutcome.setCookie ≠ [])⟩, fun _ => rfl,
   fun _ => ⟨rfl, (by decide : 200 ≤ okNetOutcome.status),
     (by decide : okNetOutcome.status < 300)⟩⟩

theorem hh_blocked : handshakeEnvOk envBlockedData.net :=
  ⟨fun _ => ⟨rfl, rfl, (by decide : okNetOutcome.setCookie ≠ [])⟩, fun _ => rfl,
   fun _ => ⟨rfl, (by decide : 200 ≤ okNetOutcome.status),
     (by decide : okNetOutcome.status < 300)⟩⟩

/-- C6 counterexample: `ensureSession` of `src/server.js`, run from an
empty session store against a landing page whose directives carry
attribute flags, stores and returns `cookies.join('; ')` — the full
directives — not the first-segment serialization the claim asserts for
every acquisition path. -/
theorem c6_counterexample :
    (ensureSession envHappy freshWorld).1 = .ok (some ("nsit=a1; Path=/; bm=x2")) ∧
    ((ensureSession envHappy freshWorld).2.1).sess.cookies =
      some ("nsit=a1; Path=/; bm=x2") ∧
    cookieHeaderOfDirectives ["nsit=a1; Path=/", "bm=x2"] = "nsit=a1; bm=x2" ∧
    ("nsit=a1; Path=/; bm=x2" : String) ≠ "nsit=a1; bm=x2" := by
  refine ⟨?_, ?_, ?_, ?_⟩ <;> decide

/-- C6 (amended): the first-segment serialization law holds for
`initializeNSESession` (the gated variant), which stores and returns
exactly the `"; "`-join of each directive's first `;`-delimited segment;
`ensureSession` of `src/server.js` instead stores the full directives
joined by `"; "`. -/
theorem c6_amended_token_serialization :
    (∀ (env : Env) (w : World), handshakeEnvOk env.net →
      (initNSESession true env w).1 =
        .ok (cookieHeaderOfDirectives ((env.net .homepage w.counts.homepage).setCookie)) ∧
      ((initNSESession true env w).2.1).sess.cookies =
        some (cookieHeaderOfDirectives ((env.net .homepage w.counts.homepage).setCookie))) ∧
    (∀ (env : Env) (w : World),
      (w.sess.cookies.isSome && w.sess.timestamp.isSome
        && decide (w.clock - tsVal w.sess.timestamp < w.sess.ttl)) = false →
      (env.net .homepage w.counts.homepage).netFail = none →
      200 ≤ (env.net .homepage w.counts.homepage).status →
      (env.net .homepage w.counts.homepage).status < 300 →
      (env.net .homepage w.counts.homepage).setCookie ≠ [] →
      ((ensureSession env w).2.1).sess.cookies =
        some (String.intercalate ("; ") ((env.net .homepage w.counts.homepage).setCookie))) := by
  constructor
  · intro env w hh
    obtain ⟨f1, f2, _⟩ := initNSE_forced_facts env w hh
    exact ⟨f1, by rw [f2]⟩
  · intro env w hnv hnf hst1 hst2 hck
    exact (ensure_store env w hnv hnf hst1 hst2 hck).2

/-- C7 counterexample: `ensureSession` of `src/server.js` with an
expired stored session and a landing page that fails at the network
level issues the handshake request, swallows the failure, returns the
stale token as a success, and leaves the failure counter untouched —
contradicting the claim that session acquisition never silently
swallows a failing handshake step. -/
theorem c7_counterexample :
    (envHomeDown.net .homepage 0).netFail = some .netTimeout ∧
    (ensureSession envHomeDown staleWorld).1 = .ok (some ("old=1")) ∧
    ((ensureSession envHomeDown staleWorld).2.1).sess.consecutiveFailures =
      staleWorld.sess.consecutiveFailures ∧
    (ensureSession envHomeDown staleWorld).2.2 = [Event.request .homepage] := by
  refine ⟨?_, ?_, ?_, ?_⟩ <;> decide

/-- C7 (amended): the gated variant's `initializeNSESession` never
silently swallows a failing handshake step: (1) every propagated error
leaves the streak counter incremented by exactly one; (2) a
network-failing landing page makes the forced acquisition propagate
exactly that cause; (3) every acquisition that takes the handshake path
(the cache-hit guard fails) either returns `ok` with a freshly stored
token — the returned cookie string, the entry-clock timestamp and a
zeroed streak — or propagates an error with the counter at exactly
plus one; no failing step can end in `ok` with a stale or null token.
`ensureSession` of `src/server.js` does not satisfy this policy. -/
theorem c7_amended_acquirer_propagates :
    (∀ (env : Env) (f : Bool) (w : World) (e : JsError),
      (initNSESession f env w).1 = .error e →
      ((initNSESession f env w).2.1).sess.consecutiveFailures =
        w.sess.consecutiveFailures + 1) ∧
    (∀ (env : Env) (w : World) (e : JsError),
      (env.net .homepage w.counts.homepage).netFail = some e →
      (initNSESession true env w).1 = .error e) ∧
    (∀ (env : Env) (f : Bool) (w : World),
      ¬((f = false ∧ w.sess.cookies.isSome = true)
        ∧ w.clock - tsVal w.sess.timestamp < w.sess.ttl) →
      (∃ c, (initNSESession f env w).1 = .ok c ∧
        ((initNSESession f env w).2.1).sess =
          { cookies := some c, timestamp := some w.clock, ttl := w.sess.ttl,
            consecutiveFailures := 0 }) ∨
      (∃ e, (initNSESession f env w).1 = .error e ∧
        ((initNSESession f env w).2.1).sess.consecutiveFailures =
          w.sess.consecutiveFailures + 1)) := by
  refine ⟨initNSE_err_inc, ?_, initNSE_handshake_dichotomy⟩
  intro env w e h
  have hg : ¬((true = false ∧ w.sess.cookies.isSome = true)
      ∧ w.clock - tsVal w.sess.timestamp < w.sess.ttl) := by simp
  have hhs := initHandshake_netfail env w.clock w e h
  rw [initNSE_else env true w hg, tryCatch_err_proj _ hhs]
  simp [initCatch_app]

theorem c1_witness :
    initNSESession false envHappy validWorld = (.ok ("tok=1"), validWorld, []) ∧
    ensureSession envHappy validWorld = (.ok (some ("tok=1")), validWorld, []) :=
  c1_valid_session_reuse envHappy validWorld ("tok=1") rfl rfl (by decide)

theorem c2_witness :
    (fetchOptionChain ("NIFTY") ((2 : Nat) : Int) envBlockedData freshWorld).1 =
      .error (dataCauseT (envBlockedData.net .dataEndpoint
        (freshWorld.counts.dataReq + (2 - 1)))) ∧
    countKind .dataEndpoint
      ((fetchOptionChain ("NIFTY") ((2 : Nat) : Int) envBlockedData freshWorld).2.2) = 2 :=
  c2_retry_exhaustion envBlockedData ("NIFTY") 2 freshWorld (by decide) hh_blocked
    (fun _ => rfl)

theorem c3_witness :
    List.Chain' (fun t1 t2 => t1 + MIN_REQUEST_GAP ≤ t2)
      (gateRuns envHappy [0, 100, 20000] freshWorld).2 ∧
    ∀ (env2 : Env) (w2 : World), (waitForRateLimit env2 w2).1 = .ok () :=
  c3_rate_governor_min_gap envHappy [0, 100, 20000] freshWorld (by decide)

theorem c4_witness :
    ((cooldownStep envHappy hotWorld).2.1).sess.consecutiveFailures = 0 ∧
    (fetchOptionChain ("NIFTY") 2 envHappy hotWorld).2.2 =
      Event.sleep 60000 ::
        (fetchLoop ("NIFTY") 2 1 (2 : Int).toNat envHappy
          ((cooldownStep envHappy hotWorld).2.1)).2.2 :=
  c4_circuit_breaker_cooldown envHappy ("NIFTY") 2 hotWorld (by decide)

theorem c5_witness :
    ((initNSESession true envHomeDown freshWorld).2.1).sess.consecutiveFailures =
      freshWorld.sess.consecutiveFailures + 1 ∧
    ((initNSESession true envHappy freshWorld).2.1).sess.consecutiveFailures = 0 ∧
    (fetchLoop ("NIFTY") 1 1 1 envBlockedData freshWorld).1 =
      .error (dataCauseT (envBlockedData.net .dataEndpoint
        freshWorld.counts.dataReq)) ∧
    ((fetchLoop ("NIFTY") 1 1 1 envBlockedData freshWorld).2.1).sess.consecutiveFailures =
      ((attemptAndWrap ("NIFTY") 1 envBlockedData freshWorld).2.1).sess.consecutiveFailures
        + 1 :=
  ⟨c5_failure_streak_law.1 envHomeDown true freshWorld .netTimeout (by decide),
   c5_failure_streak_law.2.1 envHappy true freshWorld ("nsit=a1; bm=x2")
     (by decide) (by decide),
   (c5_failure_streak_law.2.2.2.2 envBlockedData ("NIFTY") 1 1 0 freshWorld
       (dataCauseT (envBlockedData.net .dataEndpoint freshWorld.counts.dataReq))
       (by decide)).1 (by decide)⟩

theorem c6_witness :
    (initNSESession true envHappy freshWorld).1 =
      .ok (cookieHeaderOfDirectives
        ((envHappy.net .homepage freshWorld.counts.homepage).setCookie)) ∧
    ((initNSESession true envHappy freshWorld).2.1).sess.cookies =
      some (cookieHeaderOfDirectives
        ((envHappy.net .homepage freshWorld.counts.homepage).setCookie)) :=
  c6_amended_token_serialization.1 envHappy freshWorld hh_happy

theorem c7_witness :
    (initNSESession true envHomeDown freshWorld).1 = .error .netTimeout ∧
    ((∃ c, (initNSESession true envHappy freshWorld).1 = .ok c ∧
      ((initNSESession true envHappy freshWorld).2.1).sess =
        { cookies := some c, timestamp := some freshWorld.clock,
          ttl := freshWorld.sess.ttl, consecutiveFailures := 0 }) ∨
     (∃ e, (initNSESession true envHappy freshWorld).1 = .error e ∧
      ((initNSESession true envHappy freshWorld).2.1).sess.consecutiveFailures =
        freshWorld.sess.consecutiveFailures + 1)) :=
  ⟨c7_amended_acquirer_propagates.2.1 envHomeDown freshWorld .netTimeout rfl,
   c7_amended_acquirer_propagates.2.2 envHappy true freshWorld (by decide)⟩

theorem c8_witness :
    countKind .homepage ((initNSESession true envHappy validWorld).2.2) = 1 ∧
    countKind .homepage ((fetchAttemptBody ("NIFTY") 1 envHappy validWorld).2.2) = 0 ∧
    countKind .homepage ((fetchAttemptBody ("NIFTY") 2 envHappy validWorld).2.2) = 1 :=
  ⟨c8_forced_refresh_policy.1 envHappy validWorld hh_happy,
   c8_forced_refresh_policy.2.1 envHappy ("NIFTY") validWorld ("tok=1") rfl (by decide),
   c8_forced_refresh_policy.2.2 envHappy ("NIFTY") 2 validWorld hh_happy (by decide)⟩

theorem c9_witness :
    ((initNSESession true envHappy freshWorld).2.1).sess.timestamp =
      some freshWorld.clock ∧
    freshWorld.clock + 9000 ≤ ((initNSESession true envHappy freshWorld).2.1).clock :=
  c9_acquiredAt_entry_clock envHappy freshWorld hh_happy

theorem c10_witness :
    (fetchOptionChain ("NIFTY") (-1) envHappy freshWorld).1 = .ok none ∧
    countReq ((fetchOptionChain ("NIFTY") (-1) envHappy freshWorld).2.2) = 0 :=
  c10_nonpositive_retries_undefined envHappy ("NIFTY") (-1) freshWorld (by decide)
